import Mathlib

/-!
Verification of `cozy/ui/media_controller.py` against its design
specification.

The file under verification is a GTK view-controller (`MediaController`)
that wires transport-UI widgets to a `PlaybackControlViewModel`.  The
view model's observable-property binder (`bind_to` / `notify`) is not part
of the provided sources — only its caller `_connect_view_model` is — so the
binder is modelled from the specification (§3–§4: Subject state, a binding
registry in insertion order, `bind` appending, `notify` synchronously
invoking every callback bound to the changed name, each callback re-reading
the Subject's current state).  Everything else is embedded directly from
the Python source.
-/

variable {σ ω α β γ : Type}

/-- Modelled from the spec: the observable-property binder owned by the
Subject (`PlaybackControlViewModel.bind_to` and the notification machinery
are missing from the sources).  Per spec §3, the Subject holds current
state (type `σ`) and a binding registry mapping property names to the
ordered sequence of callbacks registered for them; we keep the registry as
a single insertion-ordered list of (name, callback) pairs.  A callback is
zero-argument in the sense of receiving no value snapshot: it reads the
Subject's current state (`σ`) and mutates observer state (`ω`). -/
structure Observable (σ ω : Type) where
  state : σ
  registry : List (String × (σ → ω → ω))

/-- Modelled from the spec: `bind(property_name, callback)` registers the
callback; registration order is insertion order, duplicates allowed. -/
def Observable.bind_to (s : Observable σ ω) (name : String)
    (cb : σ → ω → ω) : Observable σ ω :=
  { s with registry := s.registry ++ [(name, cb)] }

/-- The callbacks currently registered for `name`, in registration order. -/
def Observable.callbacksFor (s : Observable σ ω) (name : String) :
    List (σ → ω → ω) :=
  (s.registry.filter (fun e => e.1 == name)).map Prod.snd

/-- Modelled from the spec: `notify(property_name)` synchronously invokes,
in registration order, every callback bound to that name; each callback
reads the Subject's state as it is at notification time. -/
def Observable.notify (s : Observable σ ω) (name : String) (obs : ω) : ω :=
  (s.callbacksFor name).foldl (fun o cb => cb s.state o) obs

/-- Modelled from the spec: a committed mutation of a bound property —
the Subject updates its state and then notifies for the property's name
(§6: "the Subject calls back into the registry on every committed mutation
of a bound property"). -/
def Observable.setNotify (s : Observable σ ω) (name : String) (f : σ → σ)
    (obs : ω) : Observable σ ω × ω :=
  let s' : Observable σ ω := { s with state := f s.state }
  (s', s'.notify name obs)

/-- Modelled from the spec: the Subject's property mapping, "property name
(string identifier) to current value". -/
def Props (α : Type) : Type := List (String × α)

/-- Reading a property from the Subject's mapping. -/
def getProp (ps : Props α) (name : String) : Option α :=
  (List.find? (fun e => e.1 == name) ps).map Prod.snd

/-- Writing a property: the new pair shadows any previous one. -/
def setProp (ps : Props α) (name : String) (v : α) : Props α :=
  (name, v) :: ps

/-- An instrumented callback used to observe the binder's behaviour: when
invoked it appends its identifier together with the value it reads from
the Subject's current state to an invocation log. -/
def recordCb (i : Nat) (r : σ → β) : σ → List (Nat × β) → List (Nat × β) :=
  fun st log => log ++ [(i, r st)]

/-- Register a whole list of (property name, callback id) pairs, in order,
each as an instrumented callback. -/
def bindRecorders (r : σ → β) (s : Observable σ (List (Nat × β)))
    (regs : List (String × Nat)) : Observable σ (List (Nat × β)) :=
  regs.foldl (fun s e => s.bind_to e.1 (recordCb e.2 r)) s

/-- The fields of `cozy.db.book.Book` that `media_controller.py` reads:
`book.name` and `book.current_chapter.name`. -/
structure Book where
  name : String
  current_chapter_name : String
deriving DecidableEq

/-- The properties of `PlaybackControlViewModel` that `MediaController`
reads: `book`, `playing`, `length`, `relative_position`, `lock_ui`,
`volume`.  Numeric values are embedded as rationals; `length` and
`relative_position` may be `None` in the source, hence `Option`. -/
structure PlaybackControlViewModel where
  book : Option Book
  playing : Bool
  length : Option Rat
  relative_position : Option Rat
  lock_ui : Bool
  volume : Rat
deriving DecidableEq

/-- What the cover `Gtk.Image` currently shows: a paintable obtained from
the artwork cache (opaque, identified by a number) or a named icon. -/
inductive CoverContent
  | fromPaintable : Nat → CoverContent
  | fromIcon : String → CoverContent
deriving DecidableEq

/-- The widget state owned by `MediaController` that the handlers in
`media_controller.py` read and write. -/
structure WidgetState where
  title_label_text : String
  title_label_tooltip : String
  title_label_visible : Bool
  subtitle_label_text : String
  subtitle_label_tooltip : String
  subtitle_label_visible : Bool
  cover_content : CoverContent
  cover_pixel_size : Nat
  cover_visible : Bool
  seek_bar_visible : Bool
  seek_bar_position : Rat
  seek_bar_length : Rat
  play_button_icon : String
  volume_button_value : Rat
  container_bar_reveal : Bool
deriving DecidableEq

/-- `COVER_SIZE = 46` (media_controller.py line 16). -/
def COVER_SIZE : Nat := 46

/-- External collaborators of `MediaController`: the artwork cache's
`get_cover_paintable(book, scale_factor, size)` and the widget scale
factor returned by `get_scale_factor()`. -/
structure MCEnv where
  get_cover_paintable : Book → Nat → Nat → Option Nat
  scale_factor : Nat

/-- `MediaController._set_cover_image` (lines 97-105): use the cached
paintable when there is one, otherwise fall back to a named icon and set
the pixel size. -/
def _set_cover_image (env : MCEnv) (book : Book) (w : WidgetState) :
    WidgetState :=
  match env.get_cover_paintable book env.scale_factor COVER_SIZE with
  | some paintable => { w with cover_content := CoverContent.fromPaintable paintable }
  | none =>
      { w with cover_content := CoverContent.fromIcon "book-open-variant-symbolic",
               cover_pixel_size := COVER_SIZE }

/-- `_show_media_information` (lines 128-132). -/
def _show_media_information (visibility : Bool) (w : WidgetState) :
    WidgetState :=
  { w with title_label_visible := visibility,
           subtitle_label_visible := visibility,
           cover_visible := visibility,
           seek_bar_visible := visibility }

/-- `_set_book` (lines 134-140): only acts when a book is present. -/
def _set_book (env : MCEnv) (book : Option Book) (w : WidgetState) :
    WidgetState :=
  match book with
  | some b =>
      let w' := _set_cover_image env b w
      { w' with title_label_text := b.name,
                title_label_tooltip := b.name,
                subtitle_label_text := b.current_chapter_name,
                subtitle_label_tooltip := b.current_chapter_name }
  | none => w

/-- `_on_book_changed` (lines 123-126): `bool(book)` is false exactly when
the book is `None`. -/
def _on_book_changed (env : MCEnv) (vm : PlaybackControlViewModel)
    (w : WidgetState) : WidgetState :=
  _show_media_information vm.book.isSome (_set_book env vm.book w)

/-- `_on_play_changed` (lines 142-146). -/
def _on_play_changed (vm : PlaybackControlViewModel) (w : WidgetState) :
    WidgetState :=
  if vm.playing then
    { w with play_button_icon := "media-playback-pause-symbolic" }
  else
    { w with play_button_icon := "media-playback-start-symbolic" }

/-- `_on_position_changed` (lines 148-151). -/
def _on_position_changed (vm : PlaybackControlViewModel) (w : WidgetState) :
    WidgetState :=
  match vm.relative_position with
  | some position => { w with seek_bar_position := position }
  | none => w

/-- `_on_length_changed` (lines 153-156): `if length:` is Python
truthiness, false for `None` and for `0`. -/
def _on_length_changed (vm : PlaybackControlViewModel) (w : WidgetState) :
    WidgetState :=
  match vm.length with
  | some l => if l == 0 then w else { w with seek_bar_length := l }
  | none => w

/-- `_on_lock_ui_changed` (lines 158-160). -/
def _on_lock_ui_changed (vm : PlaybackControlViewModel) (w : WidgetState) :
    WidgetState :=
  { w with container_bar_reveal := !vm.lock_ui }

/-- `_on_volume_changed` (lines 162-163): reads the view model's current
volume and assigns it to the volume button. -/
def _on_volume_changed (vm : PlaybackControlViewModel) (w : WidgetState) :
    WidgetState :=
  { w with volume_button_value := vm.volume }

/-- Identifiers for the six view-model change handlers. -/
inductive Handler
  | onBookChanged
  | onPlayChanged
  | onLengthChanged
  | onPositionChanged
  | onLockUiChanged
  | onVolumeChanged
deriving DecidableEq

/-- The handler each identifier names. -/
def runHandler (env : MCEnv) :
    Handler → PlaybackControlViewModel → WidgetState → WidgetState
  | Handler.onBookChanged => _on_book_changed env
  | Handler.onPlayChanged => _on_play_changed
  | Handler.onLengthChanged => _on_length_changed
  | Handler.onPositionChanged => _on_position_changed
  | Handler.onLockUiChanged => _on_lock_ui_changed
  | Handler.onVolumeChanged => _on_volume_changed

/-- `_connect_view_model` (lines 74-80), transcribed call for call: six
`bind_to` registrations on the playback-control view model. -/
def _connect_view_model (env : MCEnv)
    (s : Observable PlaybackControlViewModel WidgetState) :
    Observable PlaybackControlViewModel WidgetState :=
  ((((((s.bind_to "book" (runHandler env Handler.onBookChanged)).bind_to
      "playing" (runHandler env Handler.onPlayChanged)).bind_to
      "length" (runHandler env Handler.onLengthChanged)).bind_to
      "position" (runHandler env Handler.onPositionChanged)).bind_to
      "lock_ui" (runHandler env Handler.onLockUiChanged)).bind_to
      "volume" (runHandler env Handler.onVolumeChanged))

/-- The (property name, handler) pairs bound by `_connect_view_model`, in
source order. -/
def connectViewModelBindings : List (String × Handler) :=
  [("book", Handler.onBookChanged),
   ("playing", Handler.onPlayChanged),
   ("length", Handler.onLengthChanged),
   ("position", Handler.onPositionChanged),
   ("lock_ui", Handler.onLockUiChanged),
   ("volume", Handler.onVolumeChanged)]

/-- The view-model methods and property setters that widget event handlers
forward to (on `PlaybackControlViewModel` and `PlaybackSpeedViewModel`). -/
inductive VMCall
  | play_pause
  | rewind
  | forward
  | open_book_detail
  | set_volume : Rat → VMCall
  | set_relative_position : Rat → VMCall
  | volume_up
  | volume_down
  | speed_up
  | speed_down
  | speed_reset
  | next_chapter
  | previous_chapter
deriving DecidableEq

/-- `_play_clicked` (lines 186-187). -/
def _play_clicked (w : WidgetState) : WidgetState × List VMCall :=
  (w, [VMCall.play_pause])

/-- `_rewind_clicked` (lines 189-190). -/
def _rewind_clicked (w : WidgetState) : WidgetState × List VMCall :=
  (w, [VMCall.rewind])

/-- `_forward_clicked` (lines 192-193). -/
def _forward_clicked (w : WidgetState) : WidgetState × List VMCall :=
  (w, [VMCall.forward])

/-- `_cover_clicked` (lines 195-196). -/
def _cover_clicked (w : WidgetState) : WidgetState × List VMCall :=
  (w, [VMCall.open_book_detail])

/-- `_on_volume_button_changed` (lines 198-199): assigns the incoming
value to the view model's `volume` property. -/
def _on_volume_button_changed (volume : Rat) (w : WidgetState) :
    WidgetState × List VMCall :=
  (w, [VMCall.set_volume volume])

/-- `_on_seek_bar_position_changed` (lines 201-202). -/
def _on_seek_bar_position_changed (position : Rat) (w : WidgetState) :
    WidgetState × List VMCall :=
  (w, [VMCall.set_relative_position position])

/-- `_volume_up` (lines 165-166). -/
def _volume_up (w : WidgetState) : WidgetState × List VMCall :=
  (w, [VMCall.volume_up])

/-- `_volume_down` (lines 168-169). -/
def _volume_down (w : WidgetState) : WidgetState × List VMCall :=
  (w, [VMCall.volume_down])

/-- `_speed_up` (lines 171-172). -/
def _speed_up (w : WidgetState) : WidgetState × List VMCall :=
  (w, [VMCall.speed_up])

/-- `_speed_down` (lines 174-175). -/
def _speed_down (w : WidgetState) : WidgetState × List VMCall :=
  (w, [VMCall.speed_down])

/-- `_speed_reset` (lines 177-178). -/
def _speed_reset (w : WidgetState) : WidgetState × List VMCall :=
  (w, [VMCall.speed_reset])

/-- `_next_chapter` (lines 180-181). -/
def _next_chapter (w : WidgetState) : WidgetState × List VMCall :=
  (w, [VMCall.next_chapter])

/-- `_prev_chapter` (lines 183-184). -/
def _prev_chapter (w : WidgetState) : WidgetState × List VMCall :=
  (w, [VMCall.previous_chapter])

/-- Identifiers for the widget event handlers registered in
`_connect_widgets` and `_setup_shortcuts`. -/
inductive WHandler
  | playClicked
  | volumeButtonChanged
  | seekBarPositionChanged
  | rewindClicked
  | forwardClicked
  | coverClicked
  | volumeUp
  | volumeDown
  | speedUp
  | speedDown
  | speedReset
  | nextChapter
  | prevChapter
deriving DecidableEq

/-- Run a widget event handler on the event payload (the numeric argument
GTK passes for value-changed and position-changed; handlers declared with
`*_` ignore it) and the current widget state. -/
def dispatch : WHandler → Rat → WidgetState → WidgetState × List VMCall
  | WHandler.playClicked, _, w => _play_clicked w
  | WHandler.volumeButtonChanged, v, w => _on_volume_button_changed v w
  | WHandler.seekBarPositionChanged, p, w => _on_seek_bar_position_changed p w
  | WHandler.rewindClicked, _, w => _rewind_clicked w
  | WHandler.forwardClicked, _, w => _forward_clicked w
  | WHandler.coverClicked, _, w => _cover_clicked w
  | WHandler.volumeUp, _, w => _volume_up w
  | WHandler.volumeDown, _, w => _volume_down w
  | WHandler.speedUp, _, w => _speed_up w
  | WHandler.speedDown, _, w => _speed_down w
  | WHandler.speedReset, _, w => _speed_reset w
  | WHandler.nextChapter, _, w => _next_chapter w
  | WHandler.prevChapter, _, w => _prev_chapter w

/-- The (widget, signal, handler) connections made by `_connect_widgets`
(lines 82-95), in source order. -/
def _connect_widgets : List (String × String × WHandler) :=
  [("play_button", "clicked", WHandler.playClicked),
   ("volume_button", "value-changed", WHandler.volumeButtonChanged),
   ("seek_bar", "position-changed", WHandler.seekBarPositionChanged),
   ("prev_button", "clicked", WHandler.rewindClicked),
   ("next_button", "clicked", WHandler.forwardClicked),
   ("seek_bar", "rewind", WHandler.rewindClicked),
   ("seek_bar", "forward", WHandler.forwardClicked),
   ("cover_img", "pressed", WHandler.coverClicked)]

/-- The keyboard actions registered by `_setup_shortcuts` (lines 108-121):
action name, handler, accelerators. -/
def _setup_shortcuts : List (String × WHandler × List String) :=
  [("play_pause", WHandler.playClicked, ["space"]),
   ("seek_rewind", WHandler.rewindClicked, ["Left"]),
   ("seek_forward", WHandler.forwardClicked, ["Right"]),
   ("volume_up", WHandler.volumeUp, ["Up"]),
   ("volume_down", WHandler.volumeDown, ["Down"]),
   ("speed_up", WHandler.speedUp, ["plus", "KP_Add", "<primary>Up"]),
   ("speed_down", WHandler.speedDown, ["minus", "KP_Subtract", "<primary>Down"]),
   ("speed_reset", WHandler.speedReset, ["equal"]),
   ("prev_chapter", WHandler.prevChapter, ["Page_Down", "<primary>Left"]),
   ("next_chapter", WHandler.nextChapter, ["Page_Up", "<primary>Right"])]

/-- Every widget handler registered by `_connect_widgets` or
`_setup_shortcuts`. -/
def registeredWidgetHandlers : List WHandler :=
  _connect_widgets.map (fun e => e.2.2) ++ _setup_shortcuts.map (fun e => e.2.1)

/-- The one view-model call each widget handler forwards its event to. -/
def forwardTarget : WHandler → Rat → VMCall
  | WHandler.playClicked, _ => VMCall.play_pause
  | WHandler.volumeButtonChanged, v => VMCall.set_volume v
  | WHandler.seekBarPositionChanged, p => VMCall.set_relative_position p
  | WHandler.rewindClicked, _ => VMCall.rewind
  | WHandler.forwardClicked, _ => VMCall.forward
  | WHandler.coverClicked, _ => VMCall.open_book_detail
  | WHandler.volumeUp, _ => VMCall.volume_up
  | WHandler.volumeDown, _ => VMCall.volume_down
  | WHandler.speedUp, _ => VMCall.speed_up
  | WHandler.speedDown, _ => VMCall.speed_down
  | WHandler.speedReset, _ => VMCall.speed_reset
  | WHandler.nextChapter, _ => VMCall.next_chapter
  | WHandler.prevChapter, _ => VMCall.previous_chapter

/-- The view-model change handlers `__init__` invokes directly after
wiring, in source order (lines 67-71). -/
def initSyncCalls : List Handler :=
  [Handler.onBookChanged, Handler.onLockUiChanged, Handler.onLengthChanged,
   Handler.onPositionChanged, Handler.onVolumeChanged]

/-- `MediaController.__init__` as it affects the binding registry and the
widget state (lines 64-72): `_connect_view_model` registers the six
bindings, then the five synchronization handlers run in order on the
initial widget state.  `_connect_widgets` and `_setup_shortcuts` register
widget wiring and touch neither. -/
def mcInit (env : MCEnv) (vm₀ : PlaybackControlViewModel) (w₀ : WidgetState) :
    Observable PlaybackControlViewModel WidgetState × WidgetState :=
  (_connect_view_model env ⟨vm₀, []⟩,
   initSyncCalls.foldl (fun w h => runHandler env h vm₀ w) w₀)

/-- The operations available on a constructed `MediaController`: a widget
event arriving, or a committed view-model mutation notifying its
observers. -/
inductive MCOp
  | widgetEvent : WHandler → Rat → MCOp
  | vmSet : String → (PlaybackControlViewModel → PlaybackControlViewModel) → MCOp

/-- One step of a constructed `MediaController`. -/
def mcStep (s : Observable PlaybackControlViewModel WidgetState × WidgetState) :
    MCOp → Observable PlaybackControlViewModel WidgetState × WidgetState
  | MCOp.widgetEvent h arg => (s.1, (dispatch h arg s.2).1)
  | MCOp.vmSet name f => s.1.setNotify name f s.2

/-- Modelled from the spec: the error `bind` raises under strict
validation when the named property does not exist on the Subject
(`UnknownPropertyError`, spec §4.1/§7); the binder implementation is not
in the sources. -/
inductive BindError
  | unknownProperty : String → BindError
deriving DecidableEq

/-- Modelled from the spec: the strict-validation variant of `bind`
(spec §4.1/§7) over a Subject whose state is the property mapping: if the
mapping does not define the name, the error is raised and nothing is
registered; otherwise the callback is registered as usual. -/
def bind_strict (s : Observable (Props α) ω) (name : String)
    (cb : Props α → ω → ω) :
    Observable (Props α) ω × Option BindError :=
  match getProp s.state name with
  | some _ => (s.bind_to name cb, none)
  | none => (s, some (BindError.unknownProperty name))

/-- A concrete handler numbering, tying the generic binder theorems to the
wiring of `_connect_view_model`. -/
def handlerIdx : Handler → Nat
  | Handler.onBookChanged => 0
  | Handler.onPlayChanged => 1
  | Handler.onLengthChanged => 2
  | Handler.onPositionChanged => 3
  | Handler.onLockUiChanged => 4
  | Handler.onVolumeChanged => 5

/-- `_connect_view_model`'s registrations as (name, callback id) pairs. -/
def mcRegs : List (String × Nat) :=
  connectViewModelBindings.map (fun e => (e.1, handlerIdx e.2))

/-- A concrete widget state used to instantiate theorems. -/
def testWidgetState : WidgetState :=
  { title_label_text := "t", title_label_tooltip := "t",
    title_label_visible := true,
    subtitle_label_text := "s", subtitle_label_tooltip := "s",
    subtitle_label_visible := true,
    cover_content := CoverContent.fromIcon "book-open-variant-symbolic",
    cover_pixel_size := 46, cover_visible := true,
    seek_bar_visible := true, seek_bar_position := 0, seek_bar_length := 1,
    play_button_icon := "media-playback-start-symbolic",
    volume_button_value := 1, container_bar_reveal := true }

/-- A concrete environment whose artwork cache finds no paintable. -/
def testEnv : MCEnv :=
  { get_cover_paintable := fun _ _ _ => none, scale_factor := 1 }

/-- A concrete view model with no loaded book. -/
def testVM : PlaybackControlViewModel :=
  { book := none, playing := false, length := none,
    relative_position := none, lock_ui := false, volume := 1 }

theorem bindRecorders_registry (r : σ → β) :
    ∀ (regs : List (String × Nat)) (s : Observable σ (List (Nat × β))),
      (bindRecorders r s regs).registry
        = s.registry ++ regs.map (fun e => (e.1, recordCb e.2 r)) := by
  intro regs
  induction regs with
  | nil => intro s; simp [bindRecorders]
  | cons e regs ih =>
      intro s
      have hstep : bindRecorders r s (e :: regs)
          = bindRecorders r (s.bind_to e.1 (recordCb e.2 r)) regs := rfl
      rw [hstep, ih]
      simp [Observable.bind_to]

theorem bindRecorders_state (r : σ → β) :
    ∀ (regs : List (String × Nat)) (s : Observable σ (List (Nat × β))),
      (bindRecorders r s regs).state = s.state := by
  intro regs
  induction regs with
  | nil => intro s; rfl
  | cons e regs ih =>
      intro s
      have hstep : bindRecorders r s (e :: regs)
          = bindRecorders r (s.bind_to e.1 (recordCb e.2 r)) regs := rfl
      rw [hstep, ih]
      rfl

theorem filter_map_keepFst (g : String × Nat → γ) (P : String) :
    ∀ regs : List (String × Nat),
      (regs.map (fun e => (e.1, g e))).filter (fun e => e.1 == P)
        = (regs.filter (fun e => e.1 == P)).map (fun e => (e.1, g e)) := by
  intro regs
  induction regs with
  | nil => rfl
  | cons e regs ih =>
      simp only [List.map_cons, List.filter_cons]
      cases h : (e.1 == P) with
      | false => simp [h, ih]
      | true => simp [h, ih]

theorem foldl_recordCb (r : σ → β) (st : σ) :
    ∀ (l : List (String × Nat)) (log : List (Nat × β)),
      (l.map (fun e => recordCb e.2 r)).foldl (fun o cb => cb st o) log
        = log ++ l.map (fun e => (e.2, r st)) := by
  intro l
  induction l with
  | nil => intro log; simp
  | cons e l ih =>
      intro log
      simp only [List.map_cons, List.foldl_cons, recordCb]
      rw [ih]
      simp

/-- The invocation trace produced by a mutation-plus-notification of
property `P`: exactly the callbacks registered for `P`, in registration
order, each recording the value read from the post-mutation state. -/
theorem setNotify_trace (r : σ → β) (st₀ : σ) (regs : List (String × Nat))
    (P : String) (f : σ → σ) (log₀ : List (Nat × β)) :
    ((bindRecorders r ⟨st₀, []⟩ regs).setNotify P f log₀).2
      = log₀ ++ (regs.filter (fun e => e.1 == P)).map
          (fun e => (e.2, r (f st₀))) := by
  simp only [Observable.setNotify, Observable.notify, Observable.callbacksFor]
  rw [bindRecorders_registry, bindRecorders_state]
  simp only [List.nil_append]
  rw [filter_map_keepFst, List.map_map]
  have hmap : ((regs.filter (fun e => e.1 == P)).map
        (Prod.snd ∘ fun e => (e.1, recordCb e.2 r)))
      = (regs.filter (fun e => e.1 == P)).map (fun e => recordCb e.2 r) := by
    simp [Function.comp]
  rw [hmap]
  rw [foldl_recordCb r (f st₀) (regs.filter (fun e => e.1 == P)) log₀]

/-- Claim C1: for every property name `P`, a change notification for `P`
invokes every callback currently registered for `P` exactly once per
change event, in registration order, and each callback reads the Subject's
state at the time of notification — the freshly written value of `P`, not
a stale snapshot.  Instrumented callbacks log their identifier and the
value of `P` they read; the log after a mutation of `P` is exactly the
registration-ordered list of callbacks bound to `P`, each paired with the
new value. -/
theorem notify_invokes_all_in_order_current_state (ps₀ : Props α)
    (regs : List (String × Nat)) (P : String) (v : α)
    (log₀ : List (Nat × Option α)) :
    ((bindRecorders (fun ps => getProp ps P) ⟨ps₀, []⟩ regs).setNotify P
        (fun ps => setProp ps P v) log₀).2
      = log₀ ++ (regs.filter (fun e => e.1 == P)).map (fun e => (e.2, some v)) := by
  rw [setNotify_trace]
  have hread : getProp (setProp ps₀ P v) P = some v := by
    unfold getProp setProp
    rw [List.find?_cons_of_pos _ (by simp)]
    rfl
  rw [hread]

/-- Claim C3: `_connect_view_model` registers exactly one callback per
observed view-model property: it appends to the registry exactly the six
names "book", "playing", "length", "position", "lock_ui", "volume", each
bound once and in this order, and binds no other name. -/
theorem connect_view_model_binds_each_once (env : MCEnv)
    (s : Observable PlaybackControlViewModel WidgetState) :
    (_connect_view_model env s).registry.map Prod.fst
      = s.registry.map Prod.fst
        ++ ["book", "playing", "length", "position", "lock_ui", "volume"] := by
  simp [_connect_view_model, Observable.bind_to]

/-- Claim C5: callbacks are zero-argument and re-read the Subject's
current value when invoked: after the Subject sets `volume` to `v` and
notifies, exactly one callback is registered for "volume", and running the
notification assigns exactly `v` to the volume button. -/
theorem volume_callback_reads_current_value (env : MCEnv)
    (vm₀ : PlaybackControlViewModel) (w : WidgetState) (v : Rat) :
    ((_connect_view_model env ⟨vm₀, []⟩).callbacksFor "volume").length = 1
    ∧ ((_connect_view_model env ⟨vm₀, []⟩).setNotify "volume"
        (fun vm => { vm with volume := v }) w).2
      = { w with volume_button_value := v } := by
  exact ⟨rfl, rfl⟩

/-- Claim C10: `_on_position_changed` leaves the widget state entirely
unchanged when the view model's `relative_position` is `None`, and
otherwise sets the seek bar's position to exactly that value. -/
theorem position_changed_frame (vm : PlaybackControlViewModel)
    (w : WidgetState) :
    (vm.relative_position = none → _on_position_changed vm w = w)
    ∧ (∀ p, vm.relative_position = some p →
        _on_position_changed vm w = { w with seek_bar_position := p }) := by
  constructor
  · intro h
    unfold _on_position_changed
    rw [h]
  · intro p h
    unfold _on_position_changed
    rw [h]

/-- Witness for claim C10 at a concrete input: the view model with no
position leaves the test widget state untouched. -/
theorem position_changed_frame_witness :
    _on_position_changed testVM testWidgetState = testWidgetState :=
  (position_changed_frame testVM testWidgetState).1 rfl

/-- Claim C2: every widget event handler registered in `_connect_widgets`
and `_setup_shortcuts` forwards its event to exactly one view-model call —
the method or property setter named by `forwardTarget` — and retains no
state in the controller: the widget state comes back unchanged. -/
theorem widget_handlers_forward_once (h : WHandler)
    (hmem : h ∈ registeredWidgetHandlers) (arg : Rat) (w : WidgetState) :
    (dispatch h arg w).1 = w ∧ (dispatch h arg w).2 = [forwardTarget h arg] := by
  cases h <;>
    simp [dispatch, forwardTarget, _play_clicked, _rewind_clicked,
      _forward_clicked, _cover_clicked, _on_volume_button_changed,
      _on_seek_bar_position_changed, _volume_up, _volume_down, _speed_up,
      _speed_down, _speed_reset, _next_chapter, _prev_chapter]

/-- Witness for claim C2: the play-button click handler, registered in
`_connect_widgets`, leaves the widget state alone and makes exactly the
`play_pause` call. -/
theorem widget_handlers_forward_once_witness :
    (dispatch WHandler.playClicked 0 testWidgetState).1 = testWidgetState
    ∧ (dispatch WHandler.playClicked 0 testWidgetState).2
        = [forwardTarget WHandler.playClicked 0] :=
  widget_handlers_forward_once WHandler.playClicked (by decide) 0
    testWidgetState

/-- Claim C4: for distinct property names `P ≠ Q`, a change notification
for `Q` invokes no callback bound only to `P`: a callback id whose every
registration is under `P` never appears in the invocation trace of a
mutation of `Q`. -/
theorem notify_does_not_cross_properties (ps₀ : Props α)
    (regs : List (String × Nat)) (P Q : String) (hPQ : P ≠ Q) (i : Nat)
    (honly : ∀ e ∈ regs, e.2 = i → e.1 = P) (v : α) :
    ((((bindRecorders (fun ps => getProp ps Q) ⟨ps₀, []⟩ regs).setNotify Q
        (fun ps => setProp ps Q v) []).2).map Prod.fst).all (fun x => x != i) = true := by
  rw [setNotify_trace]
  simp only [List.nil_append, List.map_map, List.all_eq_true]
  intro x hx
  simp only [List.mem_map, List.mem_filter, Function.comp] at hx
  obtain ⟨e, ⟨hmem, hQ⟩, hxe⟩ := hx
  simp only [bne_iff_ne, ne_eq]
  intro hxi
  have heQ : e.1 = Q := by simpa using hQ
  have heP : e.1 = P := honly e hmem (by rw [← hxe] at hxi; exact hxi)
  exact hPQ (heP ▸ heQ)

/-- Witness for claim C4 at the controller's own wiring: notifying
"volume" never invokes the callback bound only to "book"
(`_on_book_changed`, id `handlerIdx Handler.onBookChanged`). -/
theorem notify_does_not_cross_properties_witness :
    ((((bindRecorders (fun ps => getProp ps "volume")
          (⟨[], []⟩ : Observable (Props Unit) (List (Nat × Option Unit))) mcRegs).setNotify
        "volume" (fun ps => setProp ps "volume" ()) []).2).map Prod.fst).all
      (fun x => x != handlerIdx Handler.onBookChanged) = true :=
  notify_does_not_cross_properties [] mcRegs "book" "volume" (by decide)
    (handlerIdx Handler.onBookChanged) (by decide) ()

/-- Claim C6: all of `MediaController`'s registrations are created during
construction — after `mcInit` the registry holds exactly the six
construction-time bindings — and no operation of the constructed
controller (widget event or view-model mutation) adds to or removes from
the registry: there is no unbind on any execution path, so every
registration lives as long as the observer. -/
theorem registrations_construction_only (env : MCEnv)
    (vm₀ : PlaybackControlViewModel) (w₀ : WidgetState) :
    (mcInit env vm₀ w₀).1.registry.map Prod.fst
      = ["book", "playing", "length", "position", "lock_ui", "volume"]
    ∧ (∀ (s : Observable PlaybackControlViewModel WidgetState × WidgetState)
        (op : MCOp), (mcStep s op).1.registry = s.1.registry) := by
  constructor
  · rfl
  · intro s op
    cases op with
    | widgetEvent h arg => rfl
    | vmSet name f => rfl

/-- Claim C7: under strict validation, binding to a property name the
Subject does not define raises the unknown-property error and registers no
callback: the Subject, its registry included, comes back unchanged. -/
theorem bind_strict_unknown_property (s : Observable (Props α) ω)
    (name : String) (cb : Props α → ω → ω)
    (h : getProp s.state name = none) :
    bind_strict s name cb = (s, some (BindError.unknownProperty name)) := by
  unfold bind_strict
  rw [h]

/-- Witness for claim C7: binding to the undeclared name "bogus" on a
Subject defining only "volume" errors out and changes nothing. -/
theorem bind_strict_unknown_property_witness :
    bind_strict
        (⟨[("volume", (1 : Rat))], []⟩ : Observable (Props Rat) WidgetState)
        "bogus" (fun _ w => w)
      = (⟨[("volume", (1 : Rat))], []⟩,
         some (BindError.unknownProperty "bogus")) :=
  bind_strict_unknown_property _ "bogus" _ rfl

theorem play_icon_set_cover_image (env : MCEnv) (b : Book)
    (w : WidgetState) :
    (_set_cover_image env b w).play_button_icon = w.play_button_icon := by
  unfold _set_cover_image
  cases env.get_cover_paintable b env.scale_factor COVER_SIZE <;> rfl

theorem play_icon_set_book (env : MCEnv) (book : Option Book)
    (w : WidgetState) :
    (_set_book env book w).play_button_icon = w.play_button_icon := by
  cases book with
  | none => rfl
  | some b =>
      show (_set_cover_image env b w).play_button_icon = w.play_button_icon
      exact play_icon_set_cover_image env b w

theorem play_icon_book_changed (env : MCEnv) (vm : PlaybackControlViewModel)
    (w : WidgetState) :
    (_on_book_changed env vm w).play_button_icon = w.play_button_icon := by
  show (_set_book env vm.book w).play_button_icon = w.play_button_icon
  exact play_icon_set_book env vm.book w

theorem play_icon_length_changed (vm : PlaybackControlViewModel)
    (w : WidgetState) :
    (_on_length_changed vm w).play_button_icon = w.play_button_icon := by
  unfold _on_length_changed
  cases vm.length with
  | none => rfl
  | some l =>
      cases h : (l == 0) with
      | true => simp [h]
      | false => simp [h]

theorem play_icon_position_changed (vm : PlaybackControlViewModel)
    (w : WidgetState) :
    (_on_position_changed vm w).play_button_icon = w.play_button_icon := by
  unfold _on_position_changed
  cases vm.relative_position <;> rfl

/-- Claim C8: `__init__`, after registering the bindings, invokes the
change handlers for "book", "lock_ui", "length", "position" and "volume"
exactly once each to synchronize widget state, but never
`_on_play_changed` — so the play button icon is left exactly as it was
before construction. -/
theorem init_syncs_all_but_play (env : MCEnv)
    (vm₀ : PlaybackControlViewModel) (w₀ : WidgetState) :
    (initSyncCalls.count Handler.onBookChanged = 1
      ∧ initSyncCalls.count Handler.onLockUiChanged = 1
      ∧ initSyncCalls.count Handler.onLengthChanged = 1
      ∧ initSyncCalls.count Handler.onPositionChanged = 1
      ∧ initSyncCalls.count Handler.onVolumeChanged = 1
      ∧ initSyncCalls.count Handler.onPlayChanged = 0)
    ∧ (mcInit env vm₀ w₀).2.play_button_icon = w₀.play_button_icon := by
  refine ⟨by decide, ?_⟩
  show (_on_volume_changed vm₀ (_on_position_changed vm₀ (_on_length_changed
      vm₀ (_on_lock_ui_changed vm₀ (_on_book_changed env vm₀
      w₀))))).play_button_icon = w₀.play_button_icon
  rw [show ∀ vm w, (_on_volume_changed vm w).play_button_icon
        = w.play_button_icon from fun _ _ => rfl]
  rw [play_icon_position_changed, play_icon_length_changed]
  rw [show ∀ vm w, (_on_lock_ui_changed vm w).play_button_icon
        = w.play_button_icon from fun _ _ => rfl]
  rw [play_icon_book_changed]

/-- Claim C9: when the view model's book is `None`, `_on_book_changed`
makes the title label, subtitle label, cover image and seek bar invisible
and leaves the labels' texts, tooltips and the cover content (and its
pixel size) unchanged; when a book is present, all four are made visible
and title and subtitle (text and tooltip) are set from the book's name and
current chapter name. -/
theorem book_changed_visibility_and_content (env : MCEnv)
    (vm : PlaybackControlViewModel) (w : WidgetState) :
    (vm.book = none →
      ((_on_book_changed env vm w).title_label_visible = false
        ∧ (_on_book_changed env vm w).subtitle_label_visible = false
        ∧ (_on_book_changed env vm w).cover_visible = false
        ∧ (_on_book_changed env vm w).seek_bar_visible = false
        ∧ (_on_book_changed env vm w).title_label_text = w.title_label_text
        ∧ (_on_book_changed env vm w).title_label_tooltip = w.title_label_tooltip
        ∧ (_on_book_changed env vm w).subtitle_label_text = w.subtitle_label_text
        ∧ (_on_book_changed env vm w).subtitle_label_tooltip = w.subtitle_label_tooltip
        ∧ (_on_book_changed env vm w).cover_content = w.cover_content
        ∧ (_on_book_changed env vm w).cover_pixel_size = w.cover_pixel_size))
    ∧ (∀ b, vm.book = some b →
      ((_on_book_changed env vm w).title_label_visible = true
        ∧ (_on_book_changed env vm w).subtitle_label_visible = true
        ∧ (_on_book_changed env vm w).cover_visible = true
        ∧ (_on_book_changed env vm w).seek_bar_visible = true
        ∧ (_on_book_changed env vm w).title_label_text = b.name
        ∧ (_on_book_changed env vm w).title_label_tooltip = b.name
        ∧ (_on_book_changed env vm w).subtitle_label_text = b.current_chapter_name
        ∧ (_on_book_changed env vm w).subtitle_label_tooltip = b.current_chapter_name)) := by
  constructor
  · intro hb
    unfold _on_book_changed _show_media_information _set_book
    rw [hb]
    simp
  · intro b hb
    unfold _on_book_changed _show_media_information _set_book _set_cover_image
    rw [hb]
    cases env.get_cover_paintable b env.scale_factor COVER_SIZE <;> simp

/-- Witness for claim C9: with no book loaded, the title label of the test
widget state becomes invisible. -/
theorem book_changed_visibility_and_content_witness :
    (_on_book_changed testEnv testVM testWidgetState).title_label_visible
      = false :=
  ((book_changed_visibility_and_content testEnv testVM testWidgetState).1
    rfl).1
